import Mathlib

/-!
Verification of the HELICS broker-base dispatch core against its design
specification.  The definitions below are a shallow embedding of
`BrokerBase` (command dispatch loop, tick timer handler, logging) and of
the network-broker metadata and value-federate registration helpers.
Each definition is transcribed from the corresponding C++ source.
-/

namespace Helics

/-- Action tags of the command messages handled by the dispatcher switch.
`cmdPriority` and `cmdOther` stand for the two classes of domain commands
under the externally defined `isPriorityCommand` predicate (priority
commands and ordinary commands); the loop only consults that
classification, never the concrete domain tag. -/
inductive ActionT where
  | cmdTick
  | cmdIgnore
  | cmdStop
  | cmdTerminateImmediately
  | cmdPriority
  | cmdOther
  deriving DecidableEq

/-- ActionMessage: an action tag, the `error_flag` bit of the flag field,
and the source/destination ids used by the dump log.  Other fields
(payload, time) play no role in the claims. -/
structure ActionMessage where
  action : ActionT
  errorFlag : Bool := false
  sourceId : Int := 0
  destId : Int := 0
  deriving DecidableEq

/-- CMD_TICK message as constructed by `ActionMessage M (CMD_TICK)`. -/
def CMD_TICK : ActionMessage := { action := ActionT.cmdTick }

/-- Completion codes a timer wait handler can receive.  The source only
ever compares the code against `boost::asio::error::operation_aborted`;
`otherError` stands for any further nonzero error code. -/
inductive ErrorCode where
  | success
  | operationAborted
  | otherError
  deriving DecidableEq

/-- A completion code indicates an error when it is nonzero. -/
def ErrorCode.isError (e : ErrorCode) : Bool := e != ErrorCode.success

/-- Observable outcome of one invocation of `timerTickHandler`:
the messages passed to `addActionMessage`, whether a thrown exception was
caught and logged to the console, and whether an exception escaped the
handler. -/
structure HandlerOutcome where
  enqueued : List ActionMessage
  exceptionLogged : Bool
  exceptionPropagated : Bool
  deriving DecidableEq

/-- Transcription of `timerTickHandler (BrokerBase *bbase, activeProtector
active, const boost::system::error_code &error)`.  `active` is the value
read from the guarded cell; `addActionMessageThrows` models whether the
call to `addActionMessage` throws.  The source wraps only the
non-aborted branch in try/catch; the `operation_aborted` branch calls
`addActionMessage` unprotected. -/
def timerTickHandler (active : Bool) (error : ErrorCode)
    (addActionMessageThrows : Bool) : HandlerOutcome :=
  if active then
    if error ≠ ErrorCode.operationAborted then
      if addActionMessageThrows then
        { enqueued := [], exceptionLogged := true, exceptionPropagated := false }
      else
        { enqueued := [CMD_TICK], exceptionLogged := false, exceptionPropagated := false }
    else
      if addActionMessageThrows then
        { enqueued := [], exceptionLogged := false, exceptionPropagated := true }
      else
        { enqueued := [{ action := ActionT.cmdTick, errorFlag := true }],
          exceptionLogged := false, exceptionPropagated := false }
  else
    { enqueued := [], exceptionLogged := false, exceptionPropagated := false }

/-- Observable actions performed by one run of `queueProcessingLoop`,
in program order.  `sendToLog` records an invocation of `sendToLogger`
with the given arguments (made by the `logDump` lambda). -/
inductive LoopEvent where
  | processCommand (m : ActionMessage)
  | processPriorityCommand (m : ActionMessage)
  | processDisconnect
  | tickTimerCancel
  | tickTimerArm
  | serviceLoopRelease
  | serviceLoopAcquire
  | storeMainLoopIsRunning (b : Bool)
  | storeActive (b : Bool)
  | sendToLog (federateID : Int) (level : Int) (logName : String) (message : String)
  deriving DecidableEq

/-- Configuration of `BrokerBase` read by the dispatch loop. -/
structure BrokerConfig where
  dumplog : Bool := false
  haltOperations : Bool := false
  identifier : String := ""

/-- Mutable state touched by `queueProcessingLoop`: the non-tick message
counter, the tick timer and service-loop handles, the `mainLoopIsRunning`
atomic, the guarded `active` cell shared with the timer callback, and the
`dumpMessages` record. -/
structure LoopState where
  messagesSinceLastTick : Nat := 0
  timerArmed : Bool := false
  serviceLoopHeld : Bool := false
  mainLoopIsRunning : Bool := false
  activeFlag : Bool := false
  dumpMessages : List ActionMessage := []
  deriving DecidableEq

/-- State on entry to the loop body: `mainLoopIsRunning` stored true, the
service loop acquired, the guarded cell created holding `true`, the tick
timer armed and the message counter at zero. -/
def loopEntryState : LoopState :=
  { messagesSinceLastTick := 0, timerArmed := true, serviceLoopHeld := true,
    mainLoopIsRunning := true, activeFlag := true, dumpMessages := [] }

/-- The `if (dumplog) dumpMessages.push_back (command)` step performed on
every pop before the switch. -/
def recordDump (cfg : BrokerConfig) (s : LoopState) (command : ActionMessage) : LoopState :=
  if cfg.dumplog then { s with dumpMessages := s.dumpMessages ++ [command] } else s

/-- Format of one dump-log line: `"|| dl cmd:%s from %d to %d"` applied to
the pretty-printed command and its source and destination ids.
`pretty` abstracts the externally defined `prettyPrintString`. -/
def dumpLogLine (pretty : ActionMessage → String) (m : ActionMessage) : String :=
  "|| dl cmd:" ++ pretty m ++ " from " ++ toString m.sourceId ++ " to " ++ toString m.destId

/-- The `sendToLogger (0, -10, identifier, …)` call made by `logDump` for
one recorded command. -/
def dumpEvent (cfg : BrokerConfig) (pretty : ActionMessage → String)
    (m : ActionMessage) : LoopEvent :=
  LoopEvent.sendToLog 0 (-10) cfg.identifier (dumpLogLine pretty m)

/-- The `logDump` lambda: when `dumplog` is set, emit one logger call per
recorded command, in order; otherwise nothing. -/
def logDump (cfg : BrokerConfig) (pretty : ActionMessage → String)
    (dumpMessages : List ActionMessage) : List LoopEvent :=
  if cfg.dumplog then dumpMessages.map (dumpEvent cfg pretty) else []

/-- Result of running the dispatch loop on a finite command sequence:
the emitted events, the final state, and whether the loop returned
(`false` means the sequence was exhausted with the loop still blocked on
`_queue.pop`). -/
structure LoopResult where
  events : List LoopEvent
  state : LoopState
  returned : Bool
  deriving DecidableEq

/-- Transcription of the `while (true)` body of
`BrokerBase::queueProcessingLoop`, run over a finite queue content.
Each branch mirrors the corresponding `switch (command.action ())` case,
with its effects listed in program order. -/
def queueProcessingBody (cfg : BrokerConfig) (pretty : ActionMessage → String) :
    LoopState → List ActionMessage → LoopResult
  | s, [] => { events := [], state := s, returned := false }
  | s, command :: rest =>
    let s1 := recordDump cfg s command
    match command.action with
    | ActionT.cmdTick =>
      let evs1 := if s1.messagesSinceLastTick = 0
                  then [LoopEvent.processCommand command] else []
      let evs2 := if command.errorFlag
                  then [LoopEvent.serviceLoopRelease, LoopEvent.serviceLoopAcquire] else []
      let s2 := { s1 with messagesSinceLastTick := 0, timerArmed := true }
      let r := queueProcessingBody cfg pretty s2 rest
      { r with events := evs1 ++ evs2 ++ [LoopEvent.tickTimerArm] ++ r.events }
    | ActionT.cmdIgnore => queueProcessingBody cfg pretty s1 rest
    | ActionT.cmdTerminateImmediately =>
      { events := [LoopEvent.tickTimerCancel, LoopEvent.serviceLoopRelease,
                   LoopEvent.storeMainLoopIsRunning false, LoopEvent.storeActive false]
                  ++ logDump cfg pretty s1.dumpMessages,
        state := { s1 with timerArmed := false, serviceLoopHeld := false,
                           mainLoopIsRunning := false, activeFlag := false },
        returned := true }
    | ActionT.cmdStop =>
      if cfg.haltOperations then
        { events := [LoopEvent.tickTimerCancel, LoopEvent.serviceLoopRelease],
          state := { s1 with timerArmed := false, serviceLoopHeld := false },
          returned := true }
      else
        { events := [LoopEvent.tickTimerCancel, LoopEvent.serviceLoopRelease,
                     LoopEvent.processCommand command,
                     LoopEvent.storeMainLoopIsRunning false, LoopEvent.storeActive false]
                    ++ logDump cfg pretty s1.dumpMessages
                    ++ [LoopEvent.processDisconnect],
          state := { s1 with timerArmed := false, serviceLoopHeld := false,
                             mainLoopIsRunning := false, activeFlag := false },
          returned := true }
    | ActionT.cmdPriority =>
      if cfg.haltOperations then queueProcessingBody cfg pretty s1 rest
      else
        let s2 := { s1 with messagesSinceLastTick := s1.messagesSinceLastTick + 1 }
        let r := queueProcessingBody cfg pretty s2 rest
        { r with events := LoopEvent.processPriorityCommand command :: r.events }
    | ActionT.cmdOther =>
      if cfg.haltOperations then queueProcessingBody cfg pretty s1 rest
      else
        let s2 := { s1 with messagesSinceLastTick := s1.messagesSinceLastTick + 1 }
        let r := queueProcessingBody cfg pretty s2 rest
        { r with events := LoopEvent.processCommand command :: r.events }

/-- `BrokerBase::queueProcessingLoop`: entry setup (state initialisation
and the first arming of the tick timer) followed by the dispatch body. -/
def queueProcessingLoop (cfg : BrokerConfig) (pretty : ActionMessage → String)
    (cmds : List ActionMessage) : LoopResult :=
  let r := queueProcessingBody cfg pretty loopEntryState cmds
  { r with events := LoopEvent.tickTimerArm :: r.events }

/-- Logging-related state of `BrokerBase` read by `sendToLogger` and
mutated by `setLoggerFunction`: the assigned global id, the computed
maximum log level, whether a user `loggerFunction` is installed, whether
the `loggingObj` file logger exists, and whether it is running. -/
structure LoggingState where
  global_broker_id : Int
  maxLogLevel : Int
  hasLoggerFunction : Bool
  hasLoggingObj : Bool
  loggerRunning : Bool
  deriving DecidableEq

/-- Destination a log message is handed to. -/
inductive LogEffect where
  | userFunction (logLevel : Int) (logName : String) (message : String)
  | fileLog (logLevel : Int) (entry : String)
  deriving DecidableEq

/-- Transcription of `BrokerBase::sendToLogger`: returns the boolean
result together with the effect performed (`none` when the message is
dropped or no logger exists). -/
def sendToLogger (b : LoggingState) (federateID : Int) (logLevel : Int)
    (logName message : String) : Bool × Option LogEffect :=
  if federateID = 0 ∨ federateID = b.global_broker_id then
    if logLevel > b.maxLogLevel then (true, none)
    else if b.hasLoggerFunction then
      (true, some (LogEffect.userFunction logLevel logName message))
    else if b.hasLoggingObj then
      (true, some (LogEffect.fileLog logLevel (logName ++ "::" ++ message)))
    else (true, none)
  else (false, none)

/-- Transcription of `BrokerBase::setLoggerFunction`: installing a
non-null function halts a running file logger; clearing the function
restarts the file logger when it is not running. -/
def setLoggerFunction (b : LoggingState) (logFunctionInstalled : Bool) : LoggingState :=
  let b1 := { b with hasLoggerFunction := logFunctionInstalled }
  if logFunctionInstalled then
    if b1.hasLoggingObj then
      if b1.loggerRunning then { b1 with loggerRunning := false } else b1
    else b1
  else
    if b1.loggerRunning then b1 else { b1 with loggerRunning := true }

/-- Parsed `variables_map` produced by `argumentParser`: one entry per
recognised option (`none` when the option was not supplied).  The parser
declares `fileloglevel` and `consoleloglevel` alongside the rest. -/
structure VariablesMap where
  vmMin : Option Int := none
  minfed : Option Int := none
  federates : Option Int := none
  minbroker : Option Int := none
  maxiter : Option Int := none
  brokerName : Option String := none
  dumplog : Bool := false
  identifier : Option String := none
  loglevel : Option Int := none
  fileloglevel : Option Int := none
  consoleloglevel : Option Int := none
  logfile : Option String := none
  timeout : Option Int := none
  tick : Option Int := none

/-- Configuration members of `BrokerBase` assigned by
`initializeFromCmdArgs` and by `setLogLevels`. -/
structure BrokerBaseState where
  min_federates : Int
  min_brokers : Int
  maxIterations : Int
  identifier : String
  dumplog : Bool
  maxLogLevel : Int
  consoleLogLevel : Int
  fileLogLevel : Int
  logFile : String
  timeout : Int
  tickTimer : Int
  noAutomaticID : Bool
  deriving DecidableEq

/-- Transcription of the assignment sequence of
`BrokerBase::initializeFromCmdArgs` (after parsing): each recognised
option present in the map overwrites the corresponding member, in source
order; `genId` stands for the random `gen_id ()` result used when no
identifier was supplied.  The parsed `fileloglevel` and `consoleloglevel`
entries are never read by this function. -/
def initializeFromCmdArgs (genId : String) (s : BrokerBaseState)
    (vm : VariablesMap) : BrokerBaseState :=
  let s := match vm.vmMin with
    | some v => { s with min_federates := v } | none => s
  let s := match vm.minfed with
    | some v => { s with min_federates := v } | none => s
  let s := match vm.federates with
    | some v => { s with min_federates := v } | none => s
  let s := match vm.minbroker with
    | some v => { s with min_brokers := v } | none => s
  let s := match vm.maxiter with
    | some v => { s with maxIterations := v } | none => s
  let s := match vm.brokerName with
    | some v => { s with identifier := v } | none => s
  let s := if vm.dumplog then { s with dumplog := true } else s
  let s := match vm.identifier with
    | some v => { s with identifier := v } | none => s
  let s := match vm.loglevel with
    | some v => { s with maxLogLevel := v } | none => s
  let s := match vm.logfile with
    | some v => { s with logFile := v } | none => s
  let s := match vm.timeout with
    | some v => { s with timeout := v } | none => s
  let s := match vm.tick with
    | some v => { s with tickTimer := v } | none => s
  if s.noAutomaticID then s
  else if s.identifier = "" then { s with identifier := genId } else s

/-- Transcription of `BrokerBase::setLogLevels`. -/
def setLogLevels (s : BrokerBaseState) (consoleLevel fileLevel : Int) : BrokerBaseState :=
  { s with consoleLogLevel := consoleLevel, fileLogLevel := fileLevel,
           maxLogLevel := max consoleLevel fileLevel }

/-- Registration performed by one `ValueFederate` registration call:
which base operation ran and with which arguments.  `typeName` carries
the `ValueConverter` type string of the template parameter. -/
inductive Registration where
  | globalPublication (key typeName units : String)
  | globalInput (key typeName units : String)
  | subscription (target units : String)
  deriving DecidableEq

/-- `ValueFederate::registerGlobalPublication`. -/
def registerGlobalPublication (key typeName units : String) : Registration :=
  Registration.globalPublication key typeName units

/-- `ValueFederate::registerGlobalInput`. -/
def registerGlobalInput (key typeName units : String) : Registration :=
  Registration.globalInput key typeName units

/-- `ValueFederate::registerSubscription`. -/
def registerSubscription (target units : String) : Registration :=
  Registration.subscription target units

/-- `ValueFederate::registerPublicationIndexed` (one index). -/
def registerPublicationIndexed (typeName key : String) (index1 : Int)
    (units : String) : Registration :=
  registerGlobalPublication (key ++ "_" ++ toString index1) typeName units

/-- `ValueFederate::registerPublicationIndexed` (two indices). -/
def registerPublicationIndexed2 (typeName key : String) (index1 index2 : Int)
    (units : String) : Registration :=
  registerGlobalPublication (key ++ "_" ++ toString index1 ++ "_" ++ toString index2)
    typeName units

/-- `ValueFederate::registerInputIndexed` (one index). -/
def registerInputIndexed (typeName key : String) (index1 : Int)
    (units : String) : Registration :=
  registerGlobalInput (key ++ "_" ++ toString index1) typeName units

/-- `ValueFederate::registerInputIndexed` (two indices). -/
def registerInputIndexed2 (typeName key : String) (index1 index2 : Int)
    (units : String) : Registration :=
  registerGlobalInput (key ++ "_" ++ toString index1 ++ "_" ++ toString index2)
    typeName units

/-- `ValueFederate::registerSubscriptionIndexed` (one index). -/
def registerSubscriptionIndexed (target : String) (index1 : Int)
    (units : String) : Registration :=
  registerSubscription (target ++ "_" ++ toString index1) units

/-- `ValueFederate::registerSubscriptionIndexed` (two indices). -/
def registerSubscriptionIndexed2 (target : String) (index1 index2 : Int)
    (units : String) : Registration :=
  registerSubscription (target ++ "_" ++ toString index1 ++ "_" ++ toString index2) units

/-- `InterfaceNetworks` enumeration. -/
inductive InterfaceNetworks where
  | LOCAL
  | IPV4
  | IPV6
  | ALL
  deriving DecidableEq

/-- `InterfaceTypes` enumeration. -/
inductive InterfaceTypes where
  | TCP
  | UDP
  | IP
  | IPC
  | INPROC
  deriving DecidableEq

/-- `NetworkBrokerData::ServerModeOptions` enumeration. -/
inductive ServerModeOptions where
  | UNSPECIFIED
  | SERVER_DEFAULT_ACTIVE
  | SERVER_DEFAULT_DEACTIVATED
  | SERVER_ACTIVE
  | SERVER_DEACTIVATED
  deriving DecidableEq

/-- `NetworkBrokerData` with the member initialisers of the source
header; a default-constructed record takes exactly these values. -/
structure NetworkBrokerData where
  brokerName : String := ""
  brokerAddress : String := ""
  localInterface : String := ""
  brokerInitString : String := ""
  connectionAddress : String := ""
  portNumber : Int := -1
  brokerPort : Int := -1
  connectionPort : Int := -1
  portStart : Int := -1
  maxMessageSize : Int := 16 * 256
  maxMessageCount : Int := 256
  maxRetries : Int := 5
  interfaceNetwork : InterfaceNetworks := InterfaceNetworks.LOCAL
  reuse_address : Bool := false
  use_os_port : Bool := false
  autobroker : Bool := false
  appendNameToAddress : Bool := false
  noAckConnection : Bool := false
  useJsonSerialization : Bool := false
  server_mode : ServerModeOptions := ServerModeOptions.UNSPECIFIED
  allowedType : InterfaceTypes := InterfaceTypes.IP
  deriving DecidableEq

/-!  Observation helpers over command sequences and event traces, used to
state the claims. -/

/-- Commands that flow through the `default` dispatcher case and hence
increment `messagesSinceLastTick` (when operations are not halted):
everything except the four explicitly switched tags. -/
def countedByDispatcher (m : ActionMessage) : Bool :=
  match m.action with
  | ActionT.cmdTick => false
  | ActionT.cmdIgnore => false
  | ActionT.cmdStop => false
  | ActionT.cmdTerminateImmediately => false
  | ActionT.cmdPriority => true
  | ActionT.cmdOther => true

/-- Guarded tick sequences: scanning with `seen` = "a counted command has
arrived since the last tick (or since the start)", every tick is popped
with `seen` true.  The scan stops at `CMD_STOP` and
`CMD_TERMINATE_IMMEDIATELY` because the loop returns there. -/
def guardedTicks : Bool → List ActionMessage → Bool
  | _, [] => true
  | seen, m :: rest =>
    match m.action with
    | ActionT.cmdTick => seen && guardedTicks false rest
    | ActionT.cmdStop => true
    | ActionT.cmdTerminateImmediately => true
    | _ => guardedTicks (seen || countedByDispatcher m) rest

/-- Claim-side hypothesis of the tick-idempotence property: at least one
non-tick command occurs between consecutive ticks.  Since every command
strictly between two consecutive tick occurrences is non-tick, this is
exactly the absence of two adjacent ticks. -/
def noAdjacentTicks : List ActionMessage → Bool
  | [] => true
  | [_] => true
  | a :: b :: rest =>
    !(a.action == ActionT.cmdTick && b.action == ActionT.cmdTick)
      && noAdjacentTicks (b :: rest)

/-- Whether an event is an invocation of `processCommand` on a `CMD_TICK`
message. -/
def isTickProcess : LoopEvent → Bool
  | LoopEvent.processCommand m => m.action == ActionT.cmdTick
  | _ => false

/-- Whether a trace contains an invocation of `processCommand` on a
`CMD_TICK` message. -/
def anyTickProcessed : List LoopEvent → Bool
  | [] => false
  | e :: rest => isTickProcess e || anyTickProcessed rest

/-- Whether an event is a `sendToLogger` invocation. -/
def isSendToLog : LoopEvent → Bool
  | LoopEvent.sendToLog _ _ _ _ => true
  | _ => false

/-- The `sendToLogger` invocations of a trace, in order. -/
def sendLogEvents (evs : List LoopEvent) : List LoopEvent :=
  evs.filter isSendToLog

/-- Whether a trace contains any `sendToLogger` invocation. -/
def containsSendLog (evs : List LoopEvent) : Bool :=
  !(sendLogEvents evs).isEmpty

/-- `occursBefore a b evs` holds when some occurrence of `a` precedes
every occurrence of `b` in `evs` and `b` does occur after it. -/
def occursBefore (a b : LoopEvent) : List LoopEvent → Bool
  | [] => false
  | e :: rest =>
    if e = b then false
    else if e = a then decide (b ∈ rest)
    else occursBefore a b rest

/-- The prefix of a queue content the loop actually pops: everything up
to and including the first terminating command. -/
def poppedCommands : List ActionMessage → List ActionMessage
  | [] => []
  | m :: rest =>
    match m.action with
    | ActionT.cmdStop => [m]
    | ActionT.cmdTerminateImmediately => [m]
    | _ => m :: poppedCommands rest

/-!  Concrete values used to instantiate the theorems. -/

/-- Trivial pretty-printer used for concrete runs. -/
def pretty0 : ActionMessage → String := fun _ => ""

/-- A plain tick command. -/
def tickMsg : ActionMessage := { action := ActionT.cmdTick }

/-- A `CMD_IGNORE` command. -/
def ignoreMsg : ActionMessage := { action := ActionT.cmdIgnore }

/-- An ordinary (counted, non-priority) domain command. -/
def otherMsg : ActionMessage := { action := ActionT.cmdOther }

/-- A `CMD_STOP` command. -/
def stopMsg : ActionMessage := { action := ActionT.cmdStop }

/-- A `CMD_TERMINATE_IMMEDIATELY` command. -/
def termMsg : ActionMessage := { action := ActionT.cmdTerminateImmediately }

/-- A concrete `BrokerBaseState` for evaluating the configuration intake. -/
def bb0 : BrokerBaseState :=
  { min_federates := 1, min_brokers := 1, maxIterations := 10000, identifier := "broker",
    dumplog := false, maxLogLevel := 1, consoleLogLevel := 1, fileLogLevel := 1,
    logFile := "", timeout := 30000, tickTimer := 5000, noAutomaticID := false }

/-- A run with `dumplog` and `haltOperations` both set, terminated by
`CMD_STOP`. -/
def c5HaltRun : LoopResult :=
  queueProcessingLoop { dumplog := true, haltOperations := true, identifier := "b" }
    pretty0 [otherMsg, stopMsg]

/-- A configuration with the dump log enabled. -/
def c5DumpCfg : BrokerConfig := { dumplog := true, identifier := "b" }

/-- A queue content ending in `CMD_STOP`. -/
def c5DumpCmds : List ActionMessage :=
  [{ action := ActionT.cmdOther, sourceId := 1, destId := 2 }, stopMsg]

/-!  Claims about the tick timer completion handler. -/

/-- C2 (counterexample): a firing whose completion code is a non-aborted
error — which indicates an error — enqueues `CMD_TICK` *without*
`error_flag`, contradicting the claim that every error firing attaches
the flag. -/
theorem c2_counterexample :
    ErrorCode.otherError.isError = true ∧
    (timerTickHandler true ErrorCode.otherError false).enqueued =
      [{ action := ActionT.cmdTick, errorFlag := false }] := by decide

/-- C2 (amended): for every firing of the tick timer that observes the
liveness flag active, the enqueued `CMD_TICK` carries `error_flag` exactly
when the completion code is `operation_aborted`; a success firing — and
any other error code — enqueues `CMD_TICK` without the flag. -/
theorem c2_error_flag_on_aborted_only (e : ErrorCode) :
    (timerTickHandler true e false).enqueued =
      [{ action := ActionT.cmdTick,
         errorFlag := decide (e = ErrorCode.operationAborted) }] := by
  cases e <;> rfl

/-- C4 (counterexample): on the aborted branch of the tick handler an
exception thrown inside `addActionMessage` propagates out of the handler,
contradicting the claim that it is swallowed on every branch. -/
theorem c4_counterexample :
    (timerTickHandler true ErrorCode.operationAborted true).exceptionPropagated = true := by
  decide

/-- C4 (amended): an exception thrown inside `addActionMessage` is logged
and swallowed only on the non-aborted branch of the tick handler; on the
`operation_aborted` branch no handler is installed and the exception
propagates out. -/
theorem c4_exception_containment (e : ErrorCode)
    (h : e ≠ ErrorCode.operationAborted) :
    (timerTickHandler true e true).exceptionPropagated = false ∧
    (timerTickHandler true e true).exceptionLogged = true ∧
    (timerTickHandler true ErrorCode.operationAborted true).exceptionPropagated = true := by
  cases e with
  | operationAborted => exact absurd rfl h
  | success => exact ⟨rfl, rfl, rfl⟩
  | otherError => exact ⟨rfl, rfl, rfl⟩

/-- C4 (witness): the amended containment at the concrete success code. -/
theorem c4_exception_containment_witness :
    ErrorCode.success ≠ ErrorCode.operationAborted ∧
    ((timerTickHandler true ErrorCode.success true).exceptionPropagated = false ∧
     (timerTickHandler true ErrorCode.success true).exceptionLogged = true ∧
     (timerTickHandler true ErrorCode.operationAborted true).exceptionPropagated = true) :=
  ⟨by decide, c4_exception_containment ErrorCode.success (by decide)⟩

/-!  Claims about configuration intake and defaults. -/

/-- C7: supplying `fileloglevel 7` and `consoleloglevel 3` in the parsed
option map leaves the file level, console level and maximum level of the
broker untouched — `initializeFromCmdArgs` never reads those two entries,
although the parser declares them; `setLogLevels` is the function that
would compute `maxLogLevel = max console file`, and nothing in the intake
calls it. -/
theorem c7_loglevel_options_ignored :
    (initializeFromCmdArgs "gen" bb0
        { fileloglevel := some 7, consoleloglevel := some 3 }).fileLogLevel
      = bb0.fileLogLevel ∧
    (initializeFromCmdArgs "gen" bb0
        { fileloglevel := some 7, consoleloglevel := some 3 }).consoleLogLevel
      = bb0.consoleLogLevel ∧
    (initializeFromCmdArgs "gen" bb0
        { fileloglevel := some 7, consoleloglevel := some 3 }).maxLogLevel
      = bb0.maxLogLevel ∧
    (setLogLevels bb0 3 7).maxLogLevel = max 3 7 := by decide

/-- C8: each indexed registration variant registers exactly the base
interface on the key (or target) suffixed with the index, `_i1` for the
one-index forms and `_i1_i2` for the two-index forms. -/
theorem c8_indexed_registration (typeName key target units : String)
    (index1 index2 : Int) :
    registerPublicationIndexed typeName key index1 units =
      registerGlobalPublication (key ++ "_" ++ toString index1) typeName units ∧
    registerPublicationIndexed2 typeName key index1 index2 units =
      registerGlobalPublication (key ++ "_" ++ toString index1 ++ "_" ++ toString index2)
        typeName units ∧
    registerInputIndexed typeName key index1 units =
      registerGlobalInput (key ++ "_" ++ toString index1) typeName units ∧
    registerInputIndexed2 typeName key index1 index2 units =
      registerGlobalInput (key ++ "_" ++ toString index1 ++ "_" ++ toString index2)
        typeName units ∧
    registerSubscriptionIndexed target index1 units =
      registerSubscription (target ++ "_" ++ toString index1) units ∧
    registerSubscriptionIndexed2 target index1 index2 units =
      registerSubscription (target ++ "_" ++ toString index1 ++ "_" ++ toString index2)
        units :=
  ⟨rfl, rfl, rfl, rfl, rfl, rfl⟩

/-- C9: a default-constructed `NetworkBrokerData` has every port field
equal to `-1`, `maxMessageSize = 16*256`, `maxMessageCount = 256` and
`maxRetries = 5`. -/
theorem c9_network_defaults :
    ({} : NetworkBrokerData).portNumber = -1 ∧
    ({} : NetworkBrokerData).brokerPort = -1 ∧
    ({} : NetworkBrokerData).connectionPort = -1 ∧
    ({} : NetworkBrokerData).portStart = -1 ∧
    ({} : NetworkBrokerData).maxMessageSize = 16 * 256 ∧
    ({} : NetworkBrokerData).maxMessageCount = 256 ∧
    ({} : NetworkBrokerData).maxRetries = 5 :=
  ⟨rfl, rfl, rfl, rfl, rfl, rfl, rfl⟩

/-!  Claims about `sendToLogger`. -/

/-- C6: `sendToLogger` proceeds (returns true) exactly when the federate
id is 0 or equals `global_broker_id`; messages above `maxLogLevel` are
dropped; when it proceeds below the level cut an installed user logger
function takes precedence, otherwise the file logger receives
`name ++ "::" ++ message`; and installing a user logger function halts
the file logger. -/
theorem c6_sendToLogger_spec (b : LoggingState) (fed level : Int) (nm msg : String) :
    ((sendToLogger b fed level nm msg).1 = true ↔ (fed = 0 ∨ fed = b.global_broker_id)) ∧
    ((fed = 0 ∨ fed = b.global_broker_id) → level > b.maxLogLevel →
        (sendToLogger b fed level nm msg).2 = none) ∧
    ((fed = 0 ∨ fed = b.global_broker_id) → level ≤ b.maxLogLevel →
        b.hasLoggerFunction = true →
        (sendToLogger b fed level nm msg).2 =
          some (LogEffect.userFunction level nm msg)) ∧
    ((fed = 0 ∨ fed = b.global_broker_id) → level ≤ b.maxLogLevel →
        b.hasLoggerFunction = false → b.hasLoggingObj = true →
        (sendToLogger b fed level nm msg).2 =
          some (LogEffect.fileLog level (nm ++ "::" ++ msg))) ∧
    (b.hasLoggingObj = true →
        (setLoggerFunction b true).hasLoggerFunction = true ∧
        (setLoggerFunction b true).loggerRunning = false) := by
  unfold sendToLogger setLoggerFunction
  by_cases hid : (fed = 0 ∨ fed = b.global_broker_id) <;>
    simp only [hid, if_true, if_false, iff_true, iff_false] <;>
    split_ifs <;> simp_all

/-- C6 (witness): the characterisation instantiated at a broker owning
log stream 0 with a file logger, level cut 5, and message level 2. -/
theorem c6_sendToLogger_spec_witness :
    ((sendToLogger ⟨3, 5, false, true, true⟩ 0 2 "n" "m").1 = true ↔
        ((0 : Int) = 0 ∨ (0 : Int) = (3 : Int))) ∧
    (((0 : Int) = 0 ∨ (0 : Int) = (3 : Int)) → (2 : Int) > (5 : Int) →
        (sendToLogger ⟨3, 5, false, true, true⟩ 0 2 "n" "m").2 = none) ∧
    (((0 : Int) = 0 ∨ (0 : Int) = (3 : Int)) → (2 : Int) ≤ (5 : Int) →
        (⟨3, 5, false, true, true⟩ : LoggingState).hasLoggerFunction = true →
        (sendToLogger ⟨3, 5, false, true, true⟩ 0 2 "n" "m").2 =
          some (LogEffect.userFunction 2 "n" "m")) ∧
    (((0 : Int) = 0 ∨ (0 : Int) = (3 : Int)) → (2 : Int) ≤ (5 : Int) →
        (⟨3, 5, false, true, true⟩ : LoggingState).hasLoggerFunction = false →
        (⟨3, 5, false, true, true⟩ : LoggingState).hasLoggingObj = true →
        (sendToLogger ⟨3, 5, false, true, true⟩ 0 2 "n" "m").2 =
          some (LogEffect.fileLog 2 ("n" ++ "::" ++ "m"))) ∧
    ((⟨3, 5, false, true, true⟩ : LoggingState).hasLoggingObj = true →
        (setLoggerFunction ⟨3, 5, false, true, true⟩ true).hasLoggerFunction = true ∧
        (setLoggerFunction ⟨3, 5, false, true, true⟩ true).loggerRunning = false) :=
  c6_sendToLogger_spec ⟨3, 5, false, true, true⟩ 0 2 "n" "m"

/-- C10: for a matching federate id `sendToLogger` returns true even when
the level exceeds `maxLogLevel` and the message is dropped without any
logging effect; false is returned exactly for a non-matching federate id,
so the return value cannot distinguish a dropped message from a logged
one. -/
theorem c10_sendToLogger_return (b : LoggingState) (fed level : Int) (nm msg : String) :
    ((fed = 0 ∨ fed = b.global_broker_id) →
      (sendToLogger b fed level nm msg).1 = true ∧
      (level > b.maxLogLevel → (sendToLogger b fed level nm msg).2 = none)) ∧
    ((sendToLogger b fed level nm msg).1 = false ↔
      ¬(fed = 0 ∨ fed = b.global_broker_id)) := by
  unfold sendToLogger
  by_cases hid : (fed = 0 ∨ fed = b.global_broker_id)
  · simp only [hid, if_true, iff_true]
    split_ifs <;> simp_all
  · simp [hid]

/-- C10 (witness): at federate id 0 with level 9 above the cut 5 the call
returns true and performs no logging; at the non-matching id 7 it
returns false. -/
theorem c10_sendToLogger_return_witness :
    ((((0 : Int) = 0 ∨ (0 : Int) = (3 : Int)) →
      (sendToLogger ⟨3, 5, false, true, true⟩ 0 9 "n" "m").1 = true ∧
      ((9 : Int) > (5 : Int) →
        (sendToLogger ⟨3, 5, false, true, true⟩ 0 9 "n" "m").2 = none)) ∧
    ((sendToLogger ⟨3, 5, false, true, true⟩ 0 9 "n" "m").1 = false ↔
      ¬((0 : Int) = 0 ∨ (0 : Int) = (3 : Int)))) ∧
    (sendToLogger ⟨3, 5, false, true, true⟩ 7 9 "n" "m").1 = false :=
  ⟨c10_sendToLogger_return ⟨3, 5, false, true, true⟩ 0 9 "n" "m", by decide⟩

/-!  Facts about the dispatch loop used by the tick and teardown claims. -/

/-- Recording a popped command in the dump log does not change the
non-tick message counter. -/
theorem recordDump_counter (cfg : BrokerConfig) (s : LoopState) (command : ActionMessage) :
    (recordDump cfg s command).messagesSinceLastTick = s.messagesSinceLastTick := by
  unfold recordDump; split <;> rfl

/-- `anyTickProcessed` distributes over concatenation of traces. -/
theorem anyTickProcessed_append (l1 l2 : List LoopEvent) :
    anyTickProcessed (l1 ++ l2) = (anyTickProcessed l1 || anyTickProcessed l2) := by
  induction l1 with
  | nil => simp [anyTickProcessed]
  | cons e rest ih => simp [anyTickProcessed, ih, Bool.or_assoc]

/-- The dump-log flush never invokes `processCommand`. -/
theorem anyTickProcessed_logDump (cfg : BrokerConfig) (pretty : ActionMessage → String)
    (l : List ActionMessage) : anyTickProcessed (logDump cfg pretty l) = false := by
  unfold logDump
  split
  · induction l with
    | nil => rfl
    | cons m rest ih => simpa [anyTickProcessed, dumpEvent, isTickProcess] using ih
  · rfl

/-- Core induction for the amended tick-idempotence property: starting
from any state, if every tick in the pending sequence is preceded — since
the previous tick, or, at seed `seen`, since the start — by a counted
command, then the run never hands a `CMD_TICK` to `processCommand`. -/
theorem guardedTicks_no_tick (cfg : BrokerConfig) (pretty : ActionMessage → String)
    (hhalt : cfg.haltOperations = false) :
    ∀ (cmds : List ActionMessage) (s : LoopState),
      guardedTicks (s.messagesSinceLastTick != 0) cmds = true →
      anyTickProcessed (queueProcessingBody cfg pretty s cmds).events = false := by
  intro cmds
  induction cmds with
  | nil => intro s _; rfl
  | cons c rest ih =>
    intro s hg
    obtain ⟨a, ef, sid, did⟩ := c
    cases a with
    | cmdTick =>
      simp only [guardedTicks] at hg
      rw [Bool.and_eq_true] at hg
      obtain ⟨h1, h2⟩ := hg
      have hc0 : ¬ ((recordDump cfg s ⟨ActionT.cmdTick, ef, sid, did⟩).messagesSinceLastTick = 0) := by
        rw [recordDump_counter]
        simpa using h1
      have hr := ih { recordDump cfg s ⟨ActionT.cmdTick, ef, sid, did⟩ with
                      messagesSinceLastTick := 0, timerArmed := true } (by simpa using h2)
      cases ef <;>
        simp [queueProcessingBody, hc0, anyTickProcessed_append, anyTickProcessed,
              isTickProcess, hr]
    | cmdIgnore =>
      simp only [guardedTicks, countedByDispatcher, Bool.or_false] at hg
      have hr := ih (recordDump cfg s ⟨ActionT.cmdIgnore, ef, sid, did⟩)
        (by rw [recordDump_counter]; exact hg)
      simpa [queueProcessingBody] using hr
    | cmdStop =>
      simp [queueProcessingBody, hhalt, anyTickProcessed_append, anyTickProcessed,
            isTickProcess, anyTickProcessed_logDump]
    | cmdTerminateImmediately =>
      simp [queueProcessingBody, anyTickProcessed_append, anyTickProcessed,
            isTickProcess, anyTickProcessed_logDump]
    | cmdPriority =>
      simp only [guardedTicks, countedByDispatcher, Bool.or_true] at hg
      have hr := ih { recordDump cfg s ⟨ActionT.cmdPriority, ef, sid, did⟩ with
                      messagesSinceLastTick :=
                        (recordDump cfg s ⟨ActionT.cmdPriority, ef, sid, did⟩).messagesSinceLastTick + 1 }
        (by simpa using hg)
      simp [queueProcessingBody, hhalt, anyTickProcessed, isTickProcess, hr]
    | cmdOther =>
      simp only [guardedTicks, countedByDispatcher, Bool.or_true] at hg
      have hr := ih { recordDump cfg s ⟨ActionT.cmdOther, ef, sid, did⟩ with
                      messagesSinceLastTick :=
                        (recordDump cfg s ⟨ActionT.cmdOther, ef, sid, did⟩).messagesSinceLastTick + 1 }
        (by simpa using hg)
      simp [queueProcessingBody, hhalt, anyTickProcessed, isTickProcess, hr]

/-- C1 (counterexample): the sequence `CMD_IGNORE, CMD_TICK, CMD_IGNORE,
CMD_TICK` has a non-tick command between its consecutive ticks, yet the
run invokes `processCommand` on `CMD_TICK` — `CMD_IGNORE` does not
increment the counter, so both ticks are popped with
`messagesSinceLastTick == 0`. -/
theorem c1_counterexample :
    noAdjacentTicks [ignoreMsg, tickMsg, ignoreMsg, tickMsg] = true ∧
    LoopEvent.processCommand tickMsg ∈
      (queueProcessingLoop {} pretty0 [ignoreMsg, tickMsg, ignoreMsg, tickMsg]).events := by
  decide

/-- C1 (amended): on pop of `CMD_TICK` the dispatcher invokes
`processCommand` with the tick iff `messagesSinceLastTick == 0`, and in
either case the counter is reset and the timer re-armed; and
`processCommand` is never invoked with `CMD_TICK` on any sequence in
which at least one counted command — one dispatched through the default
case, so not `CMD_TICK`, `CMD_IGNORE`, `CMD_STOP` or
`CMD_TERMINATE_IMMEDIATELY` — occurs before the first tick and between
consecutive ticks (operations not halted). -/
theorem c1_tick_forwarding (cfg : BrokerConfig) (pretty : ActionMessage → String)
    (s : LoopState) (m : ActionMessage) (cmds : List ActionMessage)
    (hm : m.action = ActionT.cmdTick) (hhalt : cfg.haltOperations = false)
    (hg : guardedTicks false cmds = true) :
    (LoopEvent.processCommand m ∈ (queueProcessingBody cfg pretty s [m]).events ↔
        s.messagesSinceLastTick = 0) ∧
    (queueProcessingBody cfg pretty s [m]).state.messagesSinceLastTick = 0 ∧
    LoopEvent.tickTimerArm ∈ (queueProcessingBody cfg pretty s [m]).events ∧
    anyTickProcessed (queueProcessingLoop cfg pretty cmds).events = false := by
  obtain ⟨a, ef, sid, did⟩ := m
  cases hm
  refine ⟨?_, ?_, ?_, ?_⟩
  · by_cases h0 : s.messagesSinceLastTick = 0 <;>
      cases ef <;> simp [queueProcessingBody, recordDump_counter, h0]
  · by_cases h0 : s.messagesSinceLastTick = 0 <;>
      cases ef <;> simp [queueProcessingBody, recordDump_counter, h0]
  · by_cases h0 : s.messagesSinceLastTick = 0 <;>
      cases ef <;> simp [queueProcessingBody, recordDump_counter, h0]
  · have hr := guardedTicks_no_tick cfg pretty hhalt cmds loopEntryState (by simpa using hg)
    simpa [queueProcessingLoop, anyTickProcessed, isTickProcess] using hr

/-- C1 (witness): the amended statement at a fresh loop state, a tick
message, and the guarded sequence of one counted command then one tick. -/
theorem c1_tick_forwarding_witness :
    guardedTicks false [otherMsg, tickMsg] = true ∧
    ((LoopEvent.processCommand tickMsg ∈
        (queueProcessingBody {} pretty0 loopEntryState [tickMsg]).events ↔
        loopEntryState.messagesSinceLastTick = 0) ∧
     (queueProcessingBody {} pretty0 loopEntryState [tickMsg]).state.messagesSinceLastTick = 0 ∧
     LoopEvent.tickTimerArm ∈ (queueProcessingBody {} pretty0 loopEntryState [tickMsg]).events ∧
     anyTickProcessed (queueProcessingLoop {} pretty0 [otherMsg, tickMsg]).events = false) :=
  ⟨by decide,
   c1_tick_forwarding {} pretty0 loopEntryState tickMsg [otherMsg, tickMsg] rfl rfl (by decide)⟩

/-- C3 (counterexample): processing `CMD_TERMINATE_IMMEDIATELY` performs
both the timer cancel and the liveness-flag clear, but the flag is *not*
cleared before the timer is cancelled — the cancel comes first. -/
theorem c3_counterexample :
    LoopEvent.storeActive false ∈ (queueProcessingLoop {} pretty0 [termMsg]).events ∧
    LoopEvent.tickTimerCancel ∈ (queueProcessingLoop {} pretty0 [termMsg]).events ∧
    occursBefore (LoopEvent.storeActive false) LoopEvent.tickTimerCancel
      (queueProcessingLoop {} pretty0 [termMsg]).events = false := by decide

/-- C3 (amended): on both teardown paths the tick timer is cancelled
*before* the guarded liveness flag is set false — the reverse of the
claimed order; and under `haltOperations` the `CMD_STOP` path emits only
the timer cancel and service release, never clearing the flag. -/
theorem c3_cancel_before_flag_clear (cfg cfgH : BrokerConfig)
    (pretty : ActionMessage → String) (s : LoopState) (rest : List ActionMessage)
    (mTerm mStop : ActionMessage)
    (hT : mTerm.action = ActionT.cmdTerminateImmediately)
    (hS : mStop.action = ActionT.cmdStop)
    (hhalt : cfg.haltOperations = false) (hH : cfgH.haltOperations = true) :
    occursBefore LoopEvent.tickTimerCancel (LoopEvent.storeActive false)
      (queueProcessingBody cfg pretty s (mTerm :: rest)).events = true ∧
    occursBefore LoopEvent.tickTimerCancel (LoopEvent.storeActive false)
      (queueProcessingBody cfg pretty s (mStop :: rest)).events = true ∧
    (queueProcessingBody cfgH pretty s (mStop :: rest)).events =
      [LoopEvent.tickTimerCancel, LoopEvent.serviceLoopRelease] := by
  obtain ⟨a1, ef1, sid1, did1⟩ := mTerm
  cases hT
  obtain ⟨a2, ef2, sid2, did2⟩ := mStop
  cases hS
  refine ⟨?_, ?_, ?_⟩
  · simp [queueProcessingBody, occursBefore]
  · simp [queueProcessingBody, hhalt, occursBefore]
  · simp [queueProcessingBody, hH]

/-- C3 (witness): the amended teardown order at the entry state with an
empty remaining queue. -/
theorem c3_cancel_before_flag_clear_witness :
    termMsg.action = ActionT.cmdTerminateImmediately ∧
    stopMsg.action = ActionT.cmdStop ∧
    (occursBefore LoopEvent.tickTimerCancel (LoopEvent.storeActive false)
        (queueProcessingBody {} pretty0 loopEntryState [termMsg]).events = true ∧
     occursBefore LoopEvent.tickTimerCancel (LoopEvent.storeActive false)
        (queueProcessingBody {} pretty0 loopEntryState [stopMsg]).events = true ∧
     (queueProcessingBody { haltOperations := true } pretty0 loopEntryState [stopMsg]).events =
       [LoopEvent.tickTimerCancel, LoopEvent.serviceLoopRelease]) :=
  ⟨rfl, rfl,
   c3_cancel_before_flag_clear {} { haltOperations := true } pretty0 loopEntryState []
     termMsg stopMsg rfl rfl rfl rfl⟩

/-- `sendLogEvents` distributes over concatenation of traces. -/
theorem sendLogEvents_append (l1 l2 : List LoopEvent) :
    sendLogEvents (l1 ++ l2) = sendLogEvents l1 ++ sendLogEvents l2 := by
  simp [sendLogEvents, List.filter_append]

/-- With the dump log enabled, the flush emits exactly one logger call per
recorded command. -/
theorem sendLogEvents_logDump (cfg : BrokerConfig) (pretty : ActionMessage → String)
    (msgs : List ActionMessage) (hd : cfg.dumplog = true) :
    sendLogEvents (logDump cfg pretty msgs) = msgs.map (dumpEvent cfg pretty) := by
  induction msgs with
  | nil => simp [logDump, hd, sendLogEvents]
  | cons m rest ih =>
    simp only [logDump, hd, if_true, List.map_cons] at ih ⊢
    simp [sendLogEvents, isSendToLog, dumpEvent, ih]

/-- The events a tick pop prepends to the trace contain no logger call. -/
theorem sendLogEvents_tick_step (p : Prop) [Decidable p] (q : Bool)
    (m : ActionMessage) (tailEvs : List LoopEvent) :
    sendLogEvents ((if p then [LoopEvent.processCommand m] else []) ++
        (if q then [LoopEvent.serviceLoopRelease, LoopEvent.serviceLoopAcquire] else []) ++
        [LoopEvent.tickTimerArm] ++ tailEvs) =
      sendLogEvents tailEvs := by
  split <;> split <;> simp [sendLogEvents, isSendToLog]

/-- Teardown invariant of the dispatch body (operations not halted): any
returning run leaves the timer cancelled, the service loop released and
`mainLoopIsRunning` false, and — with the dump log enabled — has emitted
one logger call per popped command, in order. -/
theorem teardown_body_invariant (cfg : BrokerConfig) (pretty : ActionMessage → String)
    (hhalt : cfg.haltOperations = false) :
    ∀ (cmds : List ActionMessage) (s : LoopState),
      (queueProcessingBody cfg pretty s cmds).returned = true →
      (queueProcessingBody cfg pretty s cmds).state.timerArmed = false ∧
      (queueProcessingBody cfg pretty s cmds).state.serviceLoopHeld = false ∧
      (queueProcessingBody cfg pretty s cmds).state.mainLoopIsRunning = false ∧
      (cfg.dumplog = true →
        (queueProcessingBody cfg pretty s cmds).state.dumpMessages =
          s.dumpMessages ++ poppedCommands cmds ∧
        sendLogEvents (queueProcessingBody cfg pretty s cmds).events =
          (s.dumpMessages ++ poppedCommands cmds).map (dumpEvent cfg pretty)) := by
  intro cmds
  induction cmds with
  | nil => intro s h; simp [queueProcessingBody] at h
  | cons c rest ih =>
    intro s hret
    obtain ⟨a, ef, sid, did⟩ := c
    cases a with
    | cmdTick =>
      simp only [queueProcessingBody] at hret ⊢
      obtain ⟨h1, h2, h3, h4⟩ := ih _ hret
      refine ⟨h1, h2, h3, fun hd => ?_⟩
      obtain ⟨hd1, hd2⟩ := h4 hd
      constructor
      · rw [hd1]; simp [recordDump, hd, poppedCommands]
      · rw [sendLogEvents_tick_step, hd2]
        simp [recordDump, hd, poppedCommands]
    | cmdIgnore =>
      simp only [queueProcessingBody] at hret ⊢
      obtain ⟨h1, h2, h3, h4⟩ := ih _ hret
      refine ⟨h1, h2, h3, fun hd => ?_⟩
      obtain ⟨hd1, hd2⟩ := h4 hd
      constructor
      · rw [hd1]; simp [recordDump, hd, poppedCommands]
      · rw [hd2]; simp [recordDump, hd, poppedCommands]
    | cmdStop =>
      simp only [queueProcessingBody, hhalt, Bool.false_eq_true, if_false] at hret ⊢
      refine ⟨trivial, trivial, trivial, fun hd => ?_⟩
      constructor
      · simp [recordDump, hd, poppedCommands]
      · rw [sendLogEvents_append, sendLogEvents_append,
            sendLogEvents_logDump cfg pretty _ hd]
        simp [sendLogEvents, isSendToLog, recordDump, hd, poppedCommands]
    | cmdTerminateImmediately =>
      simp only [queueProcessingBody] at hret ⊢
      refine ⟨trivial, trivial, trivial, fun hd => ?_⟩
      constructor
      · simp [recordDump, hd, poppedCommands]
      · rw [sendLogEvents_append, sendLogEvents_logDump cfg pretty _ hd]
        simp [sendLogEvents, isSendToLog, recordDump, hd, poppedCommands]
    | cmdPriority =>
      simp only [queueProcessingBody, hhalt, Bool.false_eq_true, if_false] at hret ⊢
      obtain ⟨h1, h2, h3, h4⟩ := ih _ hret
      refine ⟨h1, h2, h3, fun hd => ?_⟩
      obtain ⟨hd1, hd2⟩ := h4 hd
      constructor
      · rw [hd1]; simp [recordDump, hd, poppedCommands]
      · simp [sendLogEvents, isSendToLog] at hd2 ⊢
        rw [hd2]; simp [recordDump, hd, poppedCommands]
    | cmdOther =>
      simp only [queueProcessingBody, hhalt, Bool.false_eq_true, if_false] at hret ⊢
      obtain ⟨h1, h2, h3, h4⟩ := ih _ hret
      refine ⟨h1, h2, h3, fun hd => ?_⟩
      obtain ⟨hd1, hd2⟩ := h4 hd
      constructor
      · rw [hd1]; simp [recordDump, hd, poppedCommands]
      · simp [sendLogEvents, isSendToLog] at hd2 ⊢
        rw [hd2]; simp [recordDump, hd, poppedCommands]

/-- C5 (counterexample): a run with `haltOperations` set that pops
`CMD_STOP` returns with `mainLoopIsRunning` still true and, although the
dump log is enabled and commands were popped, emits no logger call. -/
theorem c5_counterexample :
    c5HaltRun.returned = true ∧
    c5HaltRun.state.mainLoopIsRunning = true ∧
    containsSendLog c5HaltRun.events = false := by decide

/-- C5 (amended): when operations are not halted, any returning run of
the dispatcher loop leaves the tick timer cancelled, the service loop
released and `mainLoopIsRunning` false, and — when the dump log is
enabled — has emitted every popped command to the logger at level `-10`
in the format given by `dumpLogLine`; the `CMD_STOP` return under
`haltOperations` skips the `mainLoopIsRunning` store and the dump flush. -/
theorem c5_teardown_on_return (cfg : BrokerConfig) (pretty : ActionMessage → String)
    (cmds : List ActionMessage)
    (hhalt : cfg.haltOperations = false)
    (hret : (queueProcessingLoop cfg pretty cmds).returned = true) :
    (queueProcessingLoop cfg pretty cmds).state.timerArmed = false ∧
    (queueProcessingLoop cfg pretty cmds).state.serviceLoopHeld = false ∧
    (queueProcessingLoop cfg pretty cmds).state.mainLoopIsRunning = false ∧
    (cfg.dumplog = true →
      sendLogEvents (queueProcessingLoop cfg pretty cmds).events =
        (poppedCommands cmds).map (dumpEvent cfg pretty)) := by
  have hret2 : (queueProcessingBody cfg pretty loopEntryState cmds).returned = true := by
    simpa [queueProcessingLoop] using hret
  obtain ⟨h1, h2, h3, h4⟩ := teardown_body_invariant cfg pretty hhalt cmds loopEntryState hret2
  refine ⟨by simpa [queueProcessingLoop] using h1,
          by simpa [queueProcessingLoop] using h2,
          by simpa [queueProcessingLoop] using h3,
          fun hd => ?_⟩
  obtain ⟨_, hd2⟩ := h4 hd
  have harm : sendLogEvents (queueProcessingLoop cfg pretty cmds).events =
      sendLogEvents (queueProcessingBody cfg pretty loopEntryState cmds).events := by
    simp [queueProcessingLoop, sendLogEvents, isSendToLog]
  rw [harm, hd2]
  simp [loopEntryState]

/-- C5 (witness): the amended teardown at a dump-enabled run of one
ordinary command followed by `CMD_STOP`. -/
theorem c5_teardown_on_return_witness :
    c5DumpCfg.haltOperations = false ∧
    (queueProcessingLoop c5DumpCfg pretty0 c5DumpCmds).returned = true ∧
    ((queueProcessingLoop c5DumpCfg pretty0 c5DumpCmds).state.timerArmed = false ∧
     (queueProcessingLoop c5DumpCfg pretty0 c5DumpCmds).state.serviceLoopHeld = false ∧
     (queueProcessingLoop c5DumpCfg pretty0 c5DumpCmds).state.mainLoopIsRunning = false ∧
     (c5DumpCfg.dumplog = true →
       sendLogEvents (queueProcessingLoop c5DumpCfg pretty0 c5DumpCmds).events =
         (poppedCommands c5DumpCmds).map (dumpEvent c5DumpCfg pretty0))) :=
  ⟨rfl, by decide, c5_teardown_on_return c5DumpCfg pretty0 c5DumpCmds rfl (by decide)⟩

end Helics
